import Mathlib

/-!
Verification of the big-AGI model/source registry and persona catalog
(`src/modules/llms/store-models.ts`).

The TypeScript module is embedded shallowly:

* the zustand store state (`llms`, `sources`) becomes the structure
  `ModelsStore`, and every mutation operation becomes a pure function
  `ModelsStore → ModelsStore` (each `set` call of the source is one state
  transition, so a single `set` is atomic by construction);
* JavaScript arrays become `List`, `undefined`-able fields become `Option`,
  string identity (`===`) becomes `String` equality;
* vendor-specific `setup` payloads (opaque to the registry, flat records of
  primitives in the real vendor modules) become ordered key/value lists of
  `SetupValue`, and the object-spread `{...a, ...b}` used by
  `updateSourceSetup` becomes `spreadMerge`;
* the `while` loop of `findUniqueSourceId` becomes fuel-bounded recursion
  (`findLoop`); the fuel `otherSources.length + 1` is proved sufficient;
* the static persona table `SystemPurposes` becomes an association list whose
  keys are the literal keys of the object literal, in source order.
-/

/-- Model - a LLM with certain capabilities, referenced by ID, and with a link
to the source (`DLLM` in the source). -/
structure DLLM where
  uid : String
  _sourceId : String
  _sourceModelId : String
  label : String
  contextWindowSize : Nat
  canStream : Bool
  canChat : Bool
  description : Option String := none
  tradeoff : Option String := none
  created : Option Nat := none
deriving DecidableEq

/-- Value of one field of a vendor-specific `setup` payload.  The registry
treats `setup` as opaque; the real vendor setup records are flat records of
strings, numbers and booleans. -/
inductive SetupValue where
  | num (n : Int)
  | str (s : String)
  | bool (b : Bool)
deriving DecidableEq

/-- ModelSource - a source of models, e.g. a vendor (`DModelSource` in the
source).  `setup` is the optional vendor-specific payload, modelled as an
ordered field list (a JavaScript object). -/
structure DModelSource where
  id : String
  label : String
  vendorId : String
  setup : Option (List (String × SetupValue)) := none
deriving DecidableEq

/-- Candidate id tried by `findUniqueSourceId` at iteration `count`: the bare
`vendorId` first, then `vendorId-1`, `vendorId-2`, ... -/
def candidateId (vendorId : String) : Nat → String
  | 0 => vendorId
  | Nat.succ k => vendorId ++ "-" ++ Nat.repr (k + 1)

/-- Truthiness of `otherSources.find(source => source.id === id)`. -/
def hasSourceId (sources : List DModelSource) (id : String) : Bool :=
  sources.any (fun source => source.id == id)

/-- Fuel-bounded unfolding of the `while` loop of `findUniqueSourceId`.  At
iteration `count` the candidate `candidateId vendorId count` is tested; on a
collision the loop retries with `count + 1`. -/
def findLoop (vendorId : String) (otherSources : List DModelSource) :
    Nat → Nat → Option (String × Nat)
  | 0, _ => none
  | fuel + 1, count =>
    if hasSourceId otherSources (candidateId vendorId count) then
      findLoop vendorId otherSources fuel (count + 1)
    else
      some (candidateId vendorId count, count)

/-- Embedding of `findUniqueSourceId(vendorId, otherSources)`.  The fuel
`otherSources.length + 1` always suffices (proved below), so the `Option` is
always `some`. -/
def findUniqueSourceId (vendorId : String) (otherSources : List DModelSource) :
    Option (String × Nat) :=
  findLoop vendorId otherSources (otherSources.length + 1) 0

/-- State of the zustand store: the two collections of `ModelsStore`. -/
structure ModelsStore where
  llms : List DLLM
  sources : List DModelSource
deriving DecidableEq

/-- Initial store state: `llms: []`, `sources: []`. -/
def initialStore : ModelsStore := { llms := [], sources := [] }

/-- Embedding of `addLLMs`: remove existing models with the same uid, then
concatenate the incoming models at the end. -/
def addLLMs (models : List DLLM) (state : ModelsStore) : ModelsStore :=
  { state with
    llms := state.llms.filter
        (fun model => !(models.any (fun m => m.uid == model.uid))) ++ models }

/-- Embedding of `removeLLM`: keep every model whose uid differs. -/
def removeLLM (uid : String) (state : ModelsStore) : ModelsStore :=
  { state with llms := state.llms.filter (fun model => model.uid != uid) }

/-- Embedding of `addSource`: append the source at the end. -/
def addSource (source : DModelSource) (state : ModelsStore) : ModelsStore :=
  { state with sources := state.sources ++ [source] }

/-- Embedding of `removeSource`: one state transition drops the source and
every model referencing it. -/
def removeSource (sourceId : String) (state : ModelsStore) : ModelsStore :=
  { sources := state.sources.filter (fun source => source.id != sourceId),
    llms := state.llms.filter (fun model => model._sourceId != sourceId) }

/-- Lookup of a field in a JavaScript object modelled as an ordered field
list: the first binding of the key, if any. -/
def lookupField (obj : List (String × SetupValue)) (key : String) :
    Option SetupValue :=
  (obj.find? (fun field => field.1 == key)).map (fun field => field.2)

/-- Object spread `{...old, ...updated}`: keys of `old` keep their position,
taking the value from `updated` when present; keys of `updated` absent from
`old` are appended in their own order. -/
def spreadMerge (old updated : List (String × SetupValue)) :
    List (String × SetupValue) :=
  old.map (fun field => (field.1, (lookupField updated field.1).getD field.2)) ++
    updated.filter (fun field => (lookupField old field.1).isNone)

/-- Embedding of `updateSourceSetup`: map over the sources, shallow-merging
`setup` into the matching source's existing setup (`{...undefined, ...s}` is
`{...s}`, hence the `getD []`). -/
def updateSourceSetup (sourceId : String) (setup : List (String × SetupValue))
    (state : ModelsStore) : ModelsStore :=
  { state with
    sources := state.sources.map (fun source =>
      if source.id == sourceId then
        { source with setup := some (spreadMerge (source.setup.getD []) setup) }
      else source) }

/-- One entry of the joined view returned by `useJoinedLLMs`. -/
structure JoinedLLM where
  model : DLLM
  sourceLabel : String
  vendorId : Option String
deriving DecidableEq

/-- Embedding of `useJoinedLLMs`: for every model, look its `_sourceId` up in
the current sources; `?? 'Unknown'` and `?? null` become `getD "Unknown"` and
`Option.map`. -/
def useJoinedLLMs (state : ModelsStore) : List JoinedLLM :=
  state.llms.map (fun model =>
    let modelSource :=
      state.sources.find? (fun source => source.id == model._sourceId)
    { model := model,
      sourceLabel := (modelSource.map (fun source => source.label)).getD "Unknown",
      vendorId := modelSource.map (fun source => source.vendorId) })

/-- One call of a mutation operation of the store. -/
inductive StoreOp where
  | addLLMsOp (models : List DLLM)
  | removeLLMOp (uid : String)
  | addSourceOp (source : DModelSource)
  | removeSourceOp (sourceId : String)
  | updateSourceSetupOp (sourceId : String) (setup : List (String × SetupValue))
deriving DecidableEq

/-- Apply one operation to a store state. -/
def applyOp (state : ModelsStore) : StoreOp → ModelsStore
  | StoreOp.addLLMsOp models => addLLMs models state
  | StoreOp.removeLLMOp uid => removeLLM uid state
  | StoreOp.addSourceOp source => addSource source state
  | StoreOp.removeSourceOp sourceId => removeSource sourceId state
  | StoreOp.updateSourceSetupOp sourceId setup =>
      updateSourceSetup sourceId setup state

/-- Run a sequence of operations from the initial (empty) store. -/
def runOps (ops : List StoreOp) : ModelsStore :=
  ops.foldl applyOp initialStore

/-- Uniqueness of model uids in a store state. -/
def uidsUnique (state : ModelsStore) : Prop :=
  (state.llms.map (fun model => model.uid)).Nodup

instance (state : ModelsStore) : Decidable (uidsUnique state) := by
  unfold uidsUnique; infer_instance

/-- Closed enumeration `SystemPurposeId` of the persona catalog. -/
inductive SystemPurposeId where
  | Catalyst
  | Custom
  | Designer
  | Developer
  | DeveloperPreview
  | Executive
  | Generic
  | Scientist
deriving DecidableEq, Fintype

/-- Literal spelling of a `SystemPurposeId`, as it appears as an object key. -/
def SystemPurposeId.key : SystemPurposeId → String
  | SystemPurposeId.Catalyst => "Catalyst"
  | SystemPurposeId.Custom => "Custom"
  | SystemPurposeId.Designer => "Designer"
  | SystemPurposeId.Developer => "Developer"
  | SystemPurposeId.DeveloperPreview => "DeveloperPreview"
  | SystemPurposeId.Executive => "Executive"
  | SystemPurposeId.Generic => "Generic"
  | SystemPurposeId.Scientist => "Scientist"

/-- Designated default persona identifier (`defaultSystemPurposeId`). -/
def defaultSystemPurposeId : SystemPurposeId := SystemPurposeId.Generic

/-- Voice-synthesis identifier (`voices.elevenLabs` payload). -/
structure ElevenLabsVoice where
  voiceId : String
deriving DecidableEq

/-- Voice settings of a persona record. -/
structure VoiceSettings where
  elevenLabs : Option ElevenLabsVoice := none
deriving DecidableEq

/-- Call settings of a persona record. -/
structure CallSettings where
  starters : Option (List String) := none
deriving DecidableEq

/-- Persona record (`SystemPurposeData`); the `description` values of the
table are all plain strings. -/
structure SystemPurposeData where
  title : String
  description : String
  systemMessage : String
  systemMessageNotes : Option String := none
  symbol : String
  imageUri : Option String := none
  examples : Option (List String) := none
  highlighted : Option Bool := none
  call : Option CallSettings := none
  voices : Option VoiceSettings := none
deriving DecidableEq

/-- The persona table `SystemPurposes`, as the ordered association list of the
object literal's own keys (template placeholders such as `\x7b\x7bCutoff\x7d\x7d`
are kept verbatim; braces in strings are written with character escapes). -/
def SystemPurposes : List (String × SystemPurposeData) := [
  ("DeveloperPreview", {
    title := "Developer",
    description := "Extended-capabilities Developer",
    systemMessage := "You are a sophisticated, accurate, and modern AI programming assistant.\nKnowledge cutoff: \x7b\x7bCutoff\x7d\x7d\nCurrent date: \x7b\x7bLocaleNow\x7d\x7d\n\n\x7b\x7bRenderMermaid\x7d\x7d\n\x7b\x7bRenderPlantUML\x7d\x7d\n\x7b\x7bRenderSVG\x7d\x7d\n\x7b\x7bPreferTables\x7d\x7d\n\x7b\x7bInputImage0\x7d\x7d\n\x7b\x7bToolBrowser0\x7d\x7d\n",
    symbol := "👨‍💻",
    imageUri := some "/images/personas/dev_preview_icon_120x120.webp",
    examples := some ["optimize my serverless architecture", "implement a custom hook in my React app", "migrate a js app to Next.js", "optimize my AI model for energy efficiency"],
    call := some { starters := some ["Dev here. Got code?", "Developer on call. What's the issue?", "Ready to code.", "Hello."] },
    voices := some { elevenLabs := some { voiceId := "yoZ06aMxZJJ28mfd3POQ" } } }),
  ("Developer", {
    title := "Dev",
    description := "Helps you code",
    systemMessage := "You are a sophisticated, accurate, and modern AI programming assistant",
    symbol := "👨‍💻",
    examples := some ["hello world in 10 languages", "translate python to typescript", "find and fix a bug in my code", "add a mic feature to my NextJS app", "automate tasks in React"],
    call := some { starters := some ["Dev here. Got code?", "Developer on call. What's the issue?", "Ready to code.", "Hello."] },
    voices := some { elevenLabs := some { voiceId := "yoZ06aMxZJJ28mfd3POQ" } } }),
  ("Scientist", {
    title := "Scientist",
    description := "Helps you write scientific papers",
    systemMessage := "You are a scientist's assistant. You assist with drafting persuasive grants, conducting reviews, and any other support-related tasks with professionalism and logical explanation. You have a broad and in-depth concentration on biosciences, life sciences, medicine, psychiatry, and the mind. Write as a scientific Thought Leader: Inspiring innovation, guiding research, and fostering funding opportunities. Focus on evidence-based information, emphasize data analysis, and promote curiosity and open-mindedness",
    symbol := "🔬",
    examples := some ["write a grant proposal on human AGI", "review this PDF with an eye for detail", "explain the basics of quantum mechanics", "how do I set up a PCR reaction?", "the role of dark matter in the universe"],
    call := some { starters := some ["Scientific mind at your service. What's the question?", "Scientist here. What's the query?", "Ready for science talk.", "Yes?"] },
    voices := some { elevenLabs := some { voiceId := "ErXwobaYiN019PkySvjV" } } }),
  ("Catalyst", {
    title := "Catalyst",
    description := "Growth hacker with marketing superpowers 🚀",
    systemMessage := "You are a marketing extraordinaire for a booming startup fusing creativity, data-smarts, and digital prowess to skyrocket growth & wow audiences. So fun. Much meme. 🚀🎯💡",
    symbol := "🚀",
    examples := some ["blog post on AGI in 2024", "add much emojis to this tweet", "overcome procrastination!", "how can I improve my communication skills?"],
    call := some { starters := some ["Ready to skyrocket. What's up?", "Growth hacker on line. What's the plan?", "Marketing whiz ready.", "Hey."] },
    voices := some { elevenLabs := some { voiceId := "EXAVITQu4vr4xnSDxMaL" } } }),
  ("Executive", {
    title := "Executive",
    description := "Helps you write business emails",
    systemMessage := "You are an AI corporate assistant. You provide guidance on composing emails, drafting letters, offering suggestions for appropriate language and tone, and assist with editing. You are concise. You explain your process step-by-step and concisely. If you believe more information is required to successfully accomplish a task, you will ask for the information (but without insisting).\nKnowledge cutoff: \x7b\x7bCutoff\x7d\x7d\nCurrent date: \x7b\x7bToday\x7d\x7d",
    symbol := "👔",
    examples := some ["draft a letter to the board", "write a memo to the CEO", "help me with a SWOT analysis", "how do I team build?", "improve decision-making"],
    call := some { starters := some ["Let's get to business.", "Corporate assistant here. What's the task?", "Ready for business.", "Hello."] },
    voices := some { elevenLabs := some { voiceId := "21m00Tcm4TlvDq8ikWAM" } } }),
  ("Artist", {
    title := "Artist",
    description := "Performs permanent makeup procedures",
    systemMessage := "You are a skilled and experienced permanent makeup artist. You specialize in listening to clients' requests, creating custom designs, and performing permanent makeup procedures safely and effectively.",
    symbol := "🎨",
    examples := some ["Microblading: A manual technique used to fill in eyebrows with natural-looking, individual strokes.", "Powder Brows: A technique used to give eyebrows a soft, shaded appearance.", "Lip Blushing: A technique used to give lips a natural tint or enhance their natural color.", "Eyeliner: A technique used to give the upper and/or lower lash lines a permanent color.", "Scalp Micropigmentation (Hairline Tattoo): A technique used to thicken the hairline or fill in a receding hairline."],
    call := some { starters := some ["Ready for an artistic touch?", "Your artist is here. How can I assist you?", "I'm ready to unleash your creativity."] },
    voices := some { elevenLabs := some { voiceId := "z9fAnlkpzviPz146aGWa" } } }),
  ("Generic", {
    title := "Default",
    description := "Helps you think",
    systemMessage := "You are ChatGPT, a large language model trained by OpenAI, based on the GPT-4 architecture.\nKnowledge cutoff: \x7b\x7bCutoff\x7d\x7d\nCurrent date: \x7b\x7bLocaleNow\x7d\x7d\n",
    symbol := "🧠",
    examples := some ["help me plan a trip to Japan", "what is the meaning of life?", "how do I get a job at OpenAI?", "what are some healthy meal ideas?"],
    call := some { starters := some ["Hey, how can I assist?", "AI assistant ready. What do you need?", "Ready to assist.", "Hello."] },
    voices := some { elevenLabs := some { voiceId := "z9fAnlkpzviPz146aGWa" } } }),
  ("Custom", {
    title := "Custom",
    description := "Define the persona:",
    systemMessage := "You are ChatGPT, a large language model trained by OpenAI, based on the GPT-4 architecture.\nCurrent date: \x7b\x7bToday\x7d\x7d",
    symbol := "✨",
    call := some { starters := some ["What's the task?", "What can I do?", "Ready for your task.", "Yes?"] },
    voices := some { elevenLabs := some { voiceId := "flq6f7yk4E4fJM5XTYuZ" } } })
]

/-- Well-formedness of one operation call: an `addLLMs` call whose payload
carries pairwise-distinct uids (vacuous for the other operations). -/
def opWellFormed (op : StoreOp) : Prop :=
  match op with
  | StoreOp.addLLMsOp models => (models.map (fun m => m.uid)).Nodup
  | _ => True

instance (op : StoreOp) : Decidable (opWellFormed op) := by
  unfold opWellFormed
  cases op <;> infer_instance

/-! Concrete fixtures used to instantiate the theorems below. -/

/-- Sample model attached to the `openai` source. -/
def testModelA : DLLM :=
  { uid := "openai-gpt-4", _sourceId := "openai", _sourceModelId := "gpt-4",
    label := "GPT-4", contextWindowSize := 8192, canStream := true,
    canChat := true }

/-- Sample model with the same uid as `testModelA` but another label. -/
def testModelB : DLLM :=
  { uid := "openai-gpt-4", _sourceId := "openai", _sourceModelId := "gpt-4",
    label := "GPT-4 (updated)", contextWindowSize := 8192, canStream := true,
    canChat := true }

/-- Sample model whose `_sourceId` matches no registered source. -/
def testModelC : DLLM :=
  { uid := "localai-llama", _sourceId := "localai", _sourceModelId := "llama",
    label := "Llama", contextWindowSize := 2048, canStream := false,
    canChat := true }

/-- Sample source with id `openai`. -/
def testSourceOpenAI : DModelSource :=
  { id := "openai", label := "OpenAI", vendorId := "openai" }

/-- Sample store holding two models and one source. -/
def testStore : ModelsStore :=
  { llms := [testModelA, testModelC], sources := [testSourceOpenAI] }

/-- Sample store with a single source `src` carrying no setup yet. -/
def setupStore : ModelsStore :=
  { llms := [], sources := [{ id := "src", label := "S", vendorId := "v" }] }

/-- Two models sharing one uid, differing in label. -/
def dupModelA : DLLM :=
  { uid := "dup", _sourceId := "s", _sourceModelId := "m", label := "first",
    contextWindowSize := 1, canStream := false, canChat := true }

/-- Second model of the duplicated-uid pair. -/
def dupModelB : DLLM :=
  { uid := "dup", _sourceId := "s", _sourceModelId := "m", label := "second",
    contextWindowSize := 1, canStream := false, canChat := true }

/-! Auxiliary facts about decimal representations, used to show the candidate
ids tried by `findUniqueSourceId` are pairwise distinct. -/

/-- Numeric value of a decimal digit character. -/
def digitVal (c : Char) : Nat := c.toNat - 48

/-- Value of a most-significant-first decimal digit string. -/
def decimalVal (l : List Char) : Nat :=
  l.foldl (fun acc c => acc * 10 + digitVal c) 0

/-- Structural (fuel-free) form of the digits of `n` in base 10. -/
def toDigitsRec (n : Nat) : List Char :=
  if n / 10 = 0 then [Nat.digitChar (n % 10)]
  else toDigitsRec (n / 10) ++ [Nat.digitChar (n % 10)]
decreasing_by exact Nat.div_lt_self (Nat.pos_of_ne_zero (by omega)) (by omega)

theorem digitVal_digitChar : ∀ d, d < 10 → digitVal (Nat.digitChar d) = d := by
  decide

theorem decimalVal_append_singleton (l : List Char) (c : Char) :
    decimalVal (l ++ [c]) = decimalVal l * 10 + digitVal c := by
  simp [decimalVal, List.foldl_append]

theorem decimalVal_toDigitsRec (n : Nat) : decimalVal (toDigitsRec n) = n := by
  induction n using Nat.strong_induction_on with
  | _ n ih =>
    rw [toDigitsRec]
    by_cases h : n / 10 = 0
    · have hn : n < 10 := by omega
      simp [h, decimalVal, digitVal_digitChar (n % 10) (Nat.mod_lt n (by omega))]
      omega
    · have hlt : n / 10 < n := Nat.div_lt_self (by omega) (by omega)
      simp only [h, if_false, decimalVal_append_singleton, ih (n / 10) hlt,
        digitVal_digitChar (n % 10) (Nat.mod_lt n (by omega))]
      omega

theorem toDigitsCore_eq_toDigitsRec :
    ∀ (fuel n : Nat) (l : List Char), n < fuel →
      Nat.toDigitsCore 10 fuel n l = toDigitsRec n ++ l := by
  intro fuel
  induction fuel with
  | zero => intro n l h; omega
  | succ fuel ih =>
    intro n l h
    rw [toDigitsRec]
    by_cases hdiv : n / 10 = 0
    · simp [Nat.toDigitsCore, hdiv]
    · have hlt : n / 10 < n := Nat.div_lt_self (by omega) (by omega)
      simp only [Nat.toDigitsCore, hdiv, if_false]
      rw [ih (n / 10) (Nat.digitChar (n % 10) :: l) (by omega)]
      simp

theorem repr_eq_toDigitsRec (n : Nat) :
    Nat.repr n = (toDigitsRec n).asString := by
  show (Nat.toDigits 10 n).asString = (toDigitsRec n).asString
  rw [show Nat.toDigits 10 n = Nat.toDigitsCore 10 (n + 1) n [] from rfl,
    toDigitsCore_eq_toDigitsRec (n + 1) n [] (by omega), List.append_nil]

theorem nat_repr_injective : Function.Injective Nat.repr := by
  intro a b h
  rw [repr_eq_toDigitsRec, repr_eq_toDigitsRec] at h
  have hdata : toDigitsRec a = toDigitsRec b := by
    have := congrArg String.data h
    simpa using this
  have := congrArg decimalVal hdata
  rwa [decimalVal_toDigitsRec, decimalVal_toDigitsRec] at this

theorem candidateId_injective (vendorId : String) :
    Function.Injective (candidateId vendorId) := by
  intro j k h
  match j, k with
  | 0, 0 => rfl
  | 0, Nat.succ k =>
    exfalso
    have := congrArg (fun s => s.data.length) h
    simp [candidateId, String.data_append] at this
  | Nat.succ j, 0 =>
    exfalso
    have := congrArg (fun s => s.data.length) h
    simp [candidateId, String.data_append] at this
  | Nat.succ j, Nat.succ k =>
    have hdata := congrArg String.data h
    simp only [candidateId, String.data_append] at hdata
    have hrepr : (Nat.repr (j + 1)).data = (Nat.repr (k + 1)).data :=
      List.append_cancel_left hdata
    have : Nat.repr (j + 1) = Nat.repr (k + 1) := by
      cases hj : Nat.repr (j + 1) with
      | mk dj =>
        cases hk : Nat.repr (k + 1) with
        | mk dk => rw [hj, hk] at hrepr; simp_all
    have := nat_repr_injective this
    omega

theorem hasSourceId_true_iff (sources : List DModelSource) (id : String) :
    hasSourceId sources id = true ↔ ∃ s ∈ sources, s.id = id := by
  simp [hasSourceId, List.any_eq_true]

theorem hasSourceId_false_iff (sources : List DModelSource) (id : String) :
    hasSourceId sources id = false ↔ ∀ s ∈ sources, s.id ≠ id := by
  rw [← Bool.not_eq_true, hasSourceId_true_iff]
  push_neg
  rfl

theorem exists_free_candidate (vendorId : String) (sources : List DModelSource) :
    ∃ k, k ≤ sources.length ∧
      hasSourceId sources (candidateId vendorId k) = false := by
  by_contra hall
  push_neg at hall
  have hcoll : ∀ k, k ≤ sources.length →
      candidateId vendorId k ∈ (sources.map (fun s => s.id)).toFinset := by
    intro k hk
    have := hall k hk
    rw [Bool.ne_false_iff, hasSourceId_true_iff] at this
    obtain ⟨s, hs, hid⟩ := this
    rw [List.mem_toFinset, List.mem_map]
    exact ⟨s, hs, hid⟩
  have hcard := Finset.card_le_card_of_injOn (candidateId vendorId)
    (fun k hk => hcoll k (by simpa using Nat.lt_succ_iff.mp (Finset.mem_range.mp hk)))
    (fun a _ b _ h => candidateId_injective vendorId h)
    (s := Finset.range (sources.length + 1))
  have hle := (sources.map (fun s => s.id)).toFinset_card_le
  rw [Finset.card_range] at hcard
  simp only [List.length_map] at hle
  omega

theorem findLoop_isSome (vendorId : String) (sources : List DModelSource) :
    ∀ (fuel start : Nat),
      (∃ k, k < fuel ∧
        hasSourceId sources (candidateId vendorId (start + k)) = false) →
      (findLoop vendorId sources fuel start).isSome = true := by
  intro fuel
  induction fuel with
  | zero => intro start h; omega
  | succ fuel ih =>
    intro start h
    obtain ⟨k, hk, hfree⟩ := h
    rw [findLoop]
    by_cases hc : hasSourceId sources (candidateId vendorId start) = true
    · simp only [hc, if_true]
      apply ih
      match k, hk with
      | 0, _ => simp only [Nat.add_zero] at hfree; rw [hfree] at hc; cases hc
      | k + 1, hk =>
        exact ⟨k, by omega, by rw [show start + 1 + k = start + (k + 1) by omega]; exact hfree⟩
    · simp [hc]

theorem findLoop_spec (vendorId : String) (sources : List DModelSource) :
    ∀ (fuel start : Nat) (id : String) (count : Nat),
      findLoop vendorId sources fuel start = some (id, count) →
      start ≤ count ∧ count < start + fuel ∧
        id = candidateId vendorId count ∧
        hasSourceId sources id = false ∧
        (∀ k, start ≤ k → k < count →
          hasSourceId sources (candidateId vendorId k) = true) := by
  intro fuel
  induction fuel with
  | zero => intro start id count h; cases h
  | succ fuel ih =>
    intro start id count h
    rw [findLoop] at h
    by_cases hc : hasSourceId sources (candidateId vendorId start) = true
    · simp only [hc, if_true] at h
      obtain ⟨h1, h2, h3, h4, h5⟩ := ih (start + 1) id count h
      refine ⟨by omega, by omega, h3, h4, ?_⟩
      intro k hk1 hk2
      rcases Nat.eq_or_lt_of_le hk1 with heq | hlt
      · rw [← heq]; exact hc
      · exact h5 k hlt hk2
    · rw [if_neg hc, Option.some_inj] at h
      have hid : candidateId vendorId start = id := congrArg Prod.fst h
      have hcount : start = count := congrArg Prod.snd h
      subst hcount
      refine ⟨le_refl _, by omega, hid.symm, ?_, fun k hk1 hk2 => by omega⟩
      rw [← hid]
      exact eq_false_of_ne_true hc

theorem list_map_eq_self {α : Type} (l : List α) (f : α → α)
    (h : ∀ a ∈ l, f a = a) : l.map f = l := by
  calc l.map f = l.map id := List.map_congr_left h
    _ = l := List.map_id l

theorem filter_uid_eq_nil (l : List DLLM) (u : String) :
    ((l.filter (fun model => !(u == model.uid))).filter
      (fun model => model.uid == u)) = [] := by
  induction l with
  | nil => rfl
  | cons a t ih =>
    by_cases hc : u = a.uid
    · have h1 : (!(u == a.uid)) = false := by simp [hc]
      simp [List.filter_cons, h1, ih]
    · have h1 : (!(u == a.uid)) = true := by simp [hc]
      have h2 : (a.uid == u) = false := by
        simp only [beq_eq_false_iff_ne, ne_eq]
        exact fun hh => hc hh.symm
      simp [List.filter_cons, h1, h2, ih]

theorem lookupField_cons (k0 : String) (v0 : SetupValue)
    (t : List (String × SetupValue)) (key : String) :
    lookupField ((k0, v0) :: t) key =
      if k0 == key then some v0 else lookupField t key := by
  cases h : (k0 == key) with
  | true => simp [lookupField, List.find?_cons, h]
  | false => simp [lookupField, List.find?_cons, h]

theorem lookupField_append (l1 l2 : List (String × SetupValue)) (key : String) :
    lookupField (l1 ++ l2) key = (lookupField l1 key).or (lookupField l2 key) := by
  cases h : List.find? (fun field => field.1 == key) l1 with
  | none => simp [lookupField, List.find?_append, h, Option.or]
  | some a => simp [lookupField, List.find?_append, h, Option.or]

theorem lookupField_map_part (old updated : List (String × SetupValue))
    (key : String) :
    lookupField
        (old.map (fun field => (field.1, (lookupField updated field.1).getD field.2)))
        key
      = (lookupField old key).map (fun v => (lookupField updated key).getD v) := by
  induction old with
  | nil => rfl
  | cons a t ih =>
    obtain ⟨k0, v0⟩ := a
    by_cases h : (k0 == key) = true
    · have hk : k0 = key := by simpa using h
      subst hk
      simp [List.map_cons, lookupField_cons, h]
    · simp [List.map_cons, lookupField_cons, h, ih]

theorem lookupField_filter_part (old updated : List (String × SetupValue))
    (key : String) :
    lookupField (updated.filter (fun field => (lookupField old field.1).isNone))
        key
      = if (lookupField old key).isNone then lookupField updated key
        else none := by
  induction updated with
  | nil =>
    cases h : (lookupField old key).isNone <;> simp [lookupField, h]
  | cons a t ih =>
    obtain ⟨k0, v0⟩ := a
    by_cases hmem : (lookupField old k0).isNone = true
    · rw [List.filter_cons_of_pos (by simpa using hmem)]
      by_cases hk : (k0 == key) = true
      · have hkey : k0 = key := by simpa using hk
        subst hkey
        simp [lookupField_cons, hk, hmem]
      · simp [lookupField_cons, hk, ih]
    · rw [List.filter_cons_of_neg (by simpa using hmem)]
      by_cases hk : (k0 == key) = true
      · have hkey : k0 = key := by simpa using hk
        subst hkey
        have hne : ¬(lookupField old k0 = none) := by
          simpa [Option.isNone_iff_eq_none] using hmem
        simp [ih, lookupField_cons, hk, hne]
      · simp [lookupField_cons, hk, ih]

theorem lookupField_spreadMerge (old updated : List (String × SetupValue))
    (key : String) :
    lookupField (spreadMerge old updated) key
      = (lookupField updated key).or (lookupField old key) := by
  simp only [spreadMerge]
  rw [lookupField_append, lookupField_map_part, lookupField_filter_part]
  cases h1 : lookupField old key with
  | none => cases h2 : lookupField updated key <;> simp [h1, h2, Option.or]
  | some v => cases h2 : lookupField updated key <;> simp [h1, h2, Option.or]

theorem uidsUnique_applyOp (state : ModelsStore) (op : StoreOp)
    (hwf : opWellFormed op) (h : uidsUnique state) :
    uidsUnique (applyOp state op) := by
  cases op with
  | addLLMsOp models =>
    show ((state.llms.filter _ ++ models).map (fun m => m.uid)).Nodup
    rw [List.map_append, List.nodup_append]
    refine ⟨h.sublist ((List.filter_sublist _).map _), hwf, ?_⟩
    rw [List.disjoint_left]
    intro u hu hmem2
    rw [List.mem_map] at hu hmem2
    obtain ⟨mo, hmo, rfl⟩ := hu
    obtain ⟨m, hm, hequid⟩ := hmem2
    have hp := (List.mem_filter.mp hmo).2
    simp only [Bool.not_eq_eq_eq_not, Bool.not_true, List.any_eq_false] at hp
    exact hp m hm (beq_iff_eq.mpr hequid)
  | removeLLMOp uid =>
    exact h.sublist ((List.filter_sublist _).map _)
  | addSourceOp source => exact h
  | removeSourceOp sourceId =>
    exact h.sublist ((List.filter_sublist _).map _)
  | updateSourceSetupOp sourceId setup => exact h

/-- C1: for every state and sourceId `x`, `removeSource x` is a single state
transition after which no source has id `x`, no model has `_sourceId` `x`,
and `useJoinedLLMs` of the resulting state contains no tuple whose underlying
model has `_sourceId` `x`. -/
theorem C1_removeSource_cascades (state : ModelsStore) (x : String) :
    (∀ source ∈ (removeSource x state).sources, source.id ≠ x) ∧
    (∀ model ∈ (removeSource x state).llms, model._sourceId ≠ x) ∧
    (∀ joined ∈ useJoinedLLMs (removeSource x state),
      joined.model._sourceId ≠ x) := by
  refine ⟨?_, ?_, ?_⟩
  · intro source hs
    have := (List.mem_filter.mp hs).2
    simpa using this
  · intro model hm
    have := (List.mem_filter.mp hm).2
    simpa using this
  · intro joined hj
    rw [useJoinedLLMs, List.mem_map] at hj
    obtain ⟨model, hm, rfl⟩ := hj
    have := (List.mem_filter.mp hm).2
    simpa using this

/-- Witness for C1 at a concrete store: the surviving joined tuple does not
reference the removed source. -/
theorem C1_removeSource_cascades_witness :
    ({ model := testModelC, sourceLabel := "Unknown", vendorId := none } :
      JoinedLLM).model._sourceId ≠ "openai" :=
  (C1_removeSource_cascades testStore "openai").2.2 _ (by decide)

/-- C2: `findUniqueSourceId` is a pure function whose result `(id, count)`
collides with no existing source, equals `vendorId` when `count = 0` and
`vendorId-count` otherwise, and whose `count` counts the colliding candidates
tried in order; on `[{id := "openai"}]` with vendor `openai` it returns
`("openai-1", 1)`. -/
theorem C2_findUniqueSourceId_spec (vendorId : String)
    (sources : List DModelSource) (id : String) (count : Nat)
    (h : findUniqueSourceId vendorId sources = some (id, count)) :
    (∀ s ∈ sources, s.id ≠ id) ∧
    (count = 0 → id = vendorId) ∧
    (count ≠ 0 → id = vendorId ++ "-" ++ Nat.repr count) ∧
    (∀ k < count, ∃ s ∈ sources, s.id = candidateId vendorId k) ∧
    findUniqueSourceId "openai" [testSourceOpenAI] = some ("openai-1", 1) := by
  obtain ⟨h1, h2, h3, h4, h5⟩ :=
    findLoop_spec vendorId sources (sources.length + 1) 0 id count h
  refine ⟨(hasSourceId_false_iff sources id).mp h4, ?_, ?_, ?_, by decide⟩
  · intro hc
    subst hc
    exact h3
  · intro hc
    match count, hc with
    | Nat.succ k, _ => exact h3
  · intro k hk
    exact (hasSourceId_true_iff sources (candidateId vendorId k)).mp
      (h5 k (Nat.zero_le k) hk)

/-- Witness for C2 at the spec's example input. -/
theorem C2_findUniqueSourceId_spec_witness : testSourceOpenAI.id ≠ "openai-1" :=
  (C2_findUniqueSourceId_spec "openai" [testSourceOpenAI] "openai-1" 1
    (by decide)).1 testSourceOpenAI (by decide)

/-- C9: the collision-search loop of `findUniqueSourceId` terminates within
`length + 1` trials on every input — with that fuel the result is always
`some`, and the collision count never exceeds the number of sources. -/
theorem C9_findUniqueSourceId_terminates (vendorId : String)
    (sources : List DModelSource) :
    (findUniqueSourceId vendorId sources).isSome = true ∧
    (∀ id count, findUniqueSourceId vendorId sources = some (id, count) →
      count ≤ sources.length) := by
  constructor
  · obtain ⟨k, hk, hfree⟩ := exists_free_candidate vendorId sources
    exact findLoop_isSome vendorId sources (sources.length + 1) 0
      ⟨k, by omega, by simpa using hfree⟩
  · intro id count h
    have := (findLoop_spec vendorId sources (sources.length + 1) 0 id count h).2.1
    omega

/-- Witness for C9 at the spec's example input. -/
theorem C9_findUniqueSourceId_terminates_witness :
    (1 : Nat) ≤ ([testSourceOpenAI] : List DModelSource).length :=
  (C9_findUniqueSourceId_terminates "openai" [testSourceOpenAI]).2
    "openai-1" 1 (by decide)

/-- C3: `addLLMs` has remove-then-append semantics — survivors are the models
whose uid matches no incoming model, with the incoming list appended at the
end — and adding the same uid twice with different labels leaves exactly the
second model for that uid. -/
theorem C3_addLLMs_replace (state : ModelsStore) (models : List DLLM)
    (m1 m2 : DLLM) (h : m1.uid = m2.uid) :
    (addLLMs models state).llms =
      state.llms.filter (fun model => !(models.any (fun m => m.uid == model.uid)))
        ++ models ∧
    (addLLMs [m2] (addLLMs [m1] state)).llms.filter
      (fun model => model.uid == m1.uid) = [m2] := by
  refine ⟨rfl, ?_⟩
  simp only [addLLMs, List.any_cons, List.any_nil, Bool.or_false, h,
    List.filter_append]
  rw [filter_uid_eq_nil]
  simp [List.filter_cons]
  exact fun hne heq => hne heq.symm

/-- Witness for C3 at a concrete store: the uid added twice keeps only the
second model. -/
theorem C3_addLLMs_replace_witness :
    (addLLMs [testModelB] (addLLMs [testModelA] testStore)).llms.filter
      (fun model => model.uid == testModelA.uid) = [testModelB] :=
  (C3_addLLMs_replace testStore [] testModelA testModelB (by decide)).2

/-- C4: `updateSourceSetup` on an absent id is a no-op; on the matching source
it replaces `setup` with the one-level spread overlay of the update on the
existing setup, whose lookups give the updated value when present and the old
one otherwise; two single-field updates accumulate both fields. -/
theorem C4_updateSourceSetup_shallow (state : ModelsStore) (sourceId : String)
    (setup : List (String × SetupValue)) :
    ((state.sources.all (fun source => source.id != sourceId)) = true →
      updateSourceSetup sourceId setup state = state) ∧
    (∀ source ∈ state.sources, source.id = sourceId →
      { source with setup := some (spreadMerge (source.setup.getD []) setup) }
        ∈ (updateSourceSetup sourceId setup state).sources) ∧
    (∀ old key, lookupField (spreadMerge old setup) key =
      (lookupField setup key).or (lookupField old key)) ∧
    (updateSourceSetup "src" [("b", SetupValue.num 2)]
        (updateSourceSetup "src" [("a", SetupValue.num 1)] setupStore)).sources =
      [{ id := "src", label := "S", vendorId := "v",
         setup := some [("a", SetupValue.num 1), ("b", SetupValue.num 2)] }] := by
  refine ⟨?_, ?_, fun old key => lookupField_spreadMerge old setup key, by decide⟩
  · intro hall
    have h1 : ∀ source ∈ state.sources,
        (if source.id == sourceId then
          { source with
            setup := some (spreadMerge (source.setup.getD []) setup) }
        else source) = source := by
      intro source hs
      have hne : (source.id == sourceId) = false := by
        have := List.all_eq_true.mp hall source hs
        simpa using this
      simp [hne]
    show { state with sources := _ } = state
    rw [list_map_eq_self _ _ h1]
  · intro source hs hid
    refine List.mem_map.mpr ⟨source, hs, ?_⟩
    simp [hid]

/-- Witness for C4: updating a source id absent from the store is a no-op. -/
theorem C4_updateSourceSetup_shallow_witness :
    updateSourceSetup "zzz" [] testStore = testStore :=
  (C4_updateSourceSetup_shallow testStore "zzz" []).1 (by decide)

/-- C5: `useJoinedLLMs` yields exactly one tuple per model, in order, carrying
the label and vendor of the source found for the model's `_sourceId` in the
current sources, or the sentinel `"Unknown"` and an absent vendor when the
lookup fails. -/
theorem C5_useJoinedLLMs_spec (state : ModelsStore) :
    (useJoinedLLMs state).length = state.llms.length ∧
    (∀ (i : Nat) (model : DLLM), state.llms[i]? = some model →
      ((state.sources.find? (fun source => source.id == model._sourceId) = none →
        (useJoinedLLMs state)[i]? =
          some { model := model, sourceLabel := "Unknown", vendorId := none }) ∧
       (∀ src,
         state.sources.find? (fun source => source.id == model._sourceId) =
            some src →
         (useJoinedLLMs state)[i]? =
          some { model := model, sourceLabel := src.label,
                 vendorId := some src.vendorId }))) := by
  constructor
  · simp [useJoinedLLMs]
  · intro i model hm
    constructor
    · intro hfind
      simp [useJoinedLLMs, List.getElem?_map, hm, hfind]
    · intro src hfind
      simp [useJoinedLLMs, List.getElem?_map, hm, hfind]

/-- Witness for C5: the model with a dangling `_sourceId` resolves to the
`"Unknown"` sentinel with no vendor. -/
theorem C5_useJoinedLLMs_spec_witness :
    (useJoinedLLMs testStore)[1]? =
      some { model := testModelC, sourceLabel := "Unknown", vendorId := none } :=
  (((C5_useJoinedLLMs_spec testStore).2 1 testModelC (by decide)).1) (by decide)

/-- C6: every registry operation is total in the embedding, and a missing id
is a silent no-op for the removal and update mutations and resolves to the
`"Unknown"`/absent sentinel in the joined read. -/
theorem C6_operations_total (state : ModelsStore) (uid sourceId : String)
    (setup : List (String × SetupValue)) :
    ((state.llms.all (fun model => model.uid != uid)) = true →
      removeLLM uid state = state) ∧
    ((state.sources.all (fun source => source.id != sourceId)) = true →
     (state.llms.all (fun model => model._sourceId != sourceId)) = true →
      removeSource sourceId state = state) ∧
    ((state.sources.all (fun source => source.id != sourceId)) = true →
      updateSourceSetup sourceId setup state = state) ∧
    (∀ model ∈ state.llms,
      (state.sources.all (fun source => source.id != model._sourceId)) = true →
      ({ model := model, sourceLabel := "Unknown", vendorId := none } :
        JoinedLLM) ∈ useJoinedLLMs state) := by
  refine ⟨?_, ?_, ?_, ?_⟩
  · intro hall
    have h1 : state.llms.filter (fun model => model.uid != uid) = state.llms :=
      List.filter_eq_self.mpr (List.all_eq_true.mp hall)
    show { state with llms := _ } = state
    rw [h1]
  · intro hs hl
    have h1 : state.sources.filter (fun source => source.id != sourceId) =
        state.sources :=
      List.filter_eq_self.mpr (List.all_eq_true.mp hs)
    have h2 : state.llms.filter (fun model => model._sourceId != sourceId) =
        state.llms :=
      List.filter_eq_self.mpr (List.all_eq_true.mp hl)
    show ({ sources := _, llms := _ } : ModelsStore) = state
    rw [h1, h2]
  · intro hall
    have h1 : ∀ source ∈ state.sources,
        (if source.id == sourceId then
          { source with
            setup := some (spreadMerge (source.setup.getD []) setup) }
        else source) = source := by
      intro source hs
      have hne : (source.id == sourceId) = false := by
        have := List.all_eq_true.mp hall source hs
        simpa using this
      simp [hne]
    show { state with sources := _ } = state
    rw [list_map_eq_self _ _ h1]
  · intro model hm hall
    refine List.mem_map.mpr ⟨model, hm, ?_⟩
    have hfind :
        state.sources.find? (fun source => source.id == model._sourceId) =
          none := by
      rw [List.find?_eq_none]
      intro s hs
      have := List.all_eq_true.mp hall s hs
      simpa using this
    simp [hfind]

/-- Witness for C6: removing a uid absent from the store is a no-op. -/
theorem C6_operations_total_witness : removeLLM "missing" testStore = testStore :=
  (C6_operations_total testStore "missing" "x" []).1 (by decide)

/-- C7 counterexample: a single `addLLMs` call whose payload repeats a uid is
a reachable state with two models of equal uid, so uid uniqueness does not
hold for every reachable state. -/
theorem C7_uid_unique_counterexample :
    ¬ uidsUnique (runOps [StoreOp.addLLMsOp [dupModelA, dupModelB]]) := by
  decide

/-- C7 (amended): provided every `addLLMs` call's payload carries pairwise
distinct uids, every state reachable from the empty store by any sequence of
the five mutation operations has pairwise distinct model uids. -/
theorem C7_uid_unique_amended (ops : List StoreOp)
    (hwf : ∀ op ∈ ops, opWellFormed op) : uidsUnique (runOps ops) := by
  rw [runOps]
  have hgen : ∀ (l : List StoreOp) (s : ModelsStore), uidsUnique s →
      (∀ op ∈ l, opWellFormed op) → uidsUnique (l.foldl applyOp s) := by
    intro l
    induction l with
    | nil => intro s hs _; exact hs
    | cons op t ih =>
      intro s hs hl
      rw [List.foldl_cons]
      exact ih (applyOp s op) (uidsUnique_applyOp s op (hl op (List.mem_cons_self op t)) hs)
        (fun o ho => hl o (List.mem_cons_of_mem op ho))
  exact hgen ops initialStore (by simp [uidsUnique, initialStore]) hwf

/-- Witness for the amended C7 at a concrete operation sequence. -/
theorem C7_uid_unique_amended_witness :
    uidsUnique (runOps [StoreOp.addLLMsOp [testModelA, testModelC],
      StoreOp.removeSourceOp "openai", StoreOp.addLLMsOp [testModelB]]) :=
  C7_uid_unique_amended _ (by decide)

/-- C8: the persona table is not total on the closed enumeration — the
enumerated key `Designer` has no entry (while the table carries the key
`Artist`, which is not in the enumeration); the designated default `Generic`
does have an entry. -/
theorem C8_systemPurposes_designer_missing :
    SystemPurposes.find? (fun entry => entry.1 == SystemPurposeId.Designer.key)
        = none ∧
    (SystemPurposes.find?
        (fun entry => entry.1 == defaultSystemPurposeId.key)).isSome = true ∧
    ¬ (∀ pid : SystemPurposeId,
        (SystemPurposes.find? (fun entry => entry.1 == pid.key)).isSome
          = true) ∧
    (SystemPurposes.any (fun entry => entry.1 == "Artist")) = true ∧
    (∀ pid : SystemPurposeId, pid.key ≠ "Artist") := by
  refine ⟨by decide, by decide, ?_, by decide, by decide⟩
  intro hall
  have := hall SystemPurposeId.Designer
  revert this
  decide

/-- C10: each mutation touches only its own collection — `addLLMs` and
`removeLLM` leave `sources` unchanged, `addSource` leaves `llms` unchanged,
and `updateSourceSetup` leaves `llms` and every non-matching source unchanged
in place. -/
theorem C10_frame_conditions (state : ModelsStore) (models : List DLLM)
    (uid : String) (source : DModelSource) (sourceId : String)
    (setup : List (String × SetupValue)) :
    (addLLMs models state).sources = state.sources ∧
    (removeLLM uid state).sources = state.sources ∧
    (addSource source state).llms = state.llms ∧
    (updateSourceSetup sourceId setup state).llms = state.llms ∧
    (updateSourceSetup sourceId setup state).sources.length =
      state.sources.length ∧
    (∀ (i : Nat) (h : i < state.sources.length),
      (state.sources.get ⟨i, h⟩).id ≠ sourceId →
      (updateSourceSetup sourceId setup state).sources[i]? =
        some (state.sources.get ⟨i, h⟩)) := by
  refine ⟨rfl, rfl, rfl, rfl, by simp [updateSourceSetup], ?_⟩
  intro i h hne
  simp only [updateSourceSetup, List.getElem?_map]
  rw [List.getElem?_eq_getElem h, List.get_eq_getElem]
  have hbeq : (state.sources[i].id == sourceId) = false := by
    simpa using hne
  rw [Option.map_some']
  have hcond : ¬((state.sources[i].id == sourceId) = true) := by simp [hbeq]
  rw [if_neg hcond]

/-- Witness for C10: the single source of the test store is untouched by an
update targeting another id. -/
theorem C10_frame_conditions_witness :
    (updateSourceSetup "zzz" [] testStore).sources[0]? =
      some (testStore.sources.get ⟨0, by decide⟩) :=
  (C10_frame_conditions testStore [] "u" testSourceOpenAI "zzz"
    []).2.2.2.2.2 0 (by decide) (by decide)
